import Mathlib

/-!
Verification of the `SkinCancerDataset` adapter
(`src/prerequisite/dataset_sc.py`) against its specification.

The Python class wraps three caller-supplied references — a sample
sequence `dataimage`, a label sequence `labels`, and a callable
`transforms` — and exposes `__len__` (returning `len(dataimage)`) and
`__getitem__` (returning `(transforms(dataimage[index]), labels[index])`).

Sequences are embedded as Lean lists. Python list subscripting is
embedded by `pyGet`: a negative index is first shifted by the list
length (Python wraparound); a lookup outside `[0, length)` after that
shift raises `IndexError`, embedded as `none`.
-/

/-- Normalisation Python applies to a list subscript: a negative index
is shifted by the sequence length before the bounds check. -/
def pyNorm (n : Nat) (i : Int) : Int :=
  if i < 0 then i + n else i

/-- Python list subscripting `xs[i]`: after normalising a negative
index, an in-bounds lookup returns the element and an out-of-bounds
lookup raises `IndexError`, embedded as `none`. -/
def pyGet {α : Type} (xs : List α) (i : Int) : Option α :=
  if 0 ≤ pyNorm xs.length i ∧ pyNorm xs.length i < (xs.length : Int) then
    xs[(pyNorm xs.length i).toNat]?
  else
    none

/-- Embedding of the class `SkinCancerDataset`: the constructor binds
the three caller-supplied references unchanged. -/
structure SkinCancerDataset (S L T : Type) where
  dataimage : List S
  labels : List L
  transforms : S → T

/-- Embedding of `__len__`: returns `len(me.dataimage)`. -/
def SkinCancerDataset.len {S L T : Type} (d : SkinCancerDataset S L T) : Nat :=
  d.dataimage.length

/-- Embedding of `__getitem__` for a pure transform, following the
source's evaluation order: `me.dataimage[index]` is subscripted first
(propagating `IndexError`), the transform is applied, then
`me.labels[index]` is subscripted (propagating `IndexError`). -/
def SkinCancerDataset.getitem {S L T : Type} (d : SkinCancerDataset S L T)
    (index : Int) : Option (T × L) :=
  match pyGet d.dataimage index with
  | none => none
  | some x =>
    let y := d.transforms x
    match pyGet d.labels index with
    | none => none
    | some l => some (y, l)

/-- Embedding of `__getitem__` for an effectful transform, modelled by
explicit state passing: the transform maps a sample to a state
transformer. Evaluation order follows the source: the sample subscript
is evaluated first (on failure the transform never runs and the state
is unchanged), then the transform runs, then the label subscript is
evaluated (on failure the transform's state change has already
happened). -/
def SkinCancerDataset.getitemE {σ S L T : Type}
    (d : SkinCancerDataset S L (σ → T × σ)) (index : Int) (s : σ) :
    Option (T × L) × σ :=
  match pyGet d.dataimage index with
  | none => (none, s)
  | some x =>
    let p := d.transforms x s
    match pyGet d.labels index with
    | none => (none, p.2)
    | some l => (some (p.1, l), p.2)

/-- Method call `__len__` viewed as a transformer of the instance
state: the body reads `me.dataimage` and assigns no attribute, so the
instance comes back unchanged. -/
def SkinCancerDataset.lenM {S L T : Type} (d : SkinCancerDataset S L T) :
    Nat × SkinCancerDataset S L T :=
  (d.dataimage.length, d)

/-- Method call `__getitem__` viewed as a transformer of the instance
state: the body assigns no attribute, so the instance comes back
unchanged. -/
def SkinCancerDataset.getitemM {S L T : Type} (d : SkinCancerDataset S L T)
    (index : Int) : Option (T × L) × SkinCancerDataset S L T :=
  (d.getitem index, d)

/-- Instance state after a sequence of `__getitem__` calls. -/
def runFetches {S L T : Type} (ixs : List Int) (d : SkinCancerDataset S L T) :
    SkinCancerDataset S L T :=
  ixs.foldl (fun a i => (a.getitemM i).2) d

/-! Helper lemmas about `pyGet`. -/

theorem pyNorm_of_nonneg (n : Nat) (i : Int) (h : 0 ≤ i) : pyNorm n i = i :=
  if_neg (by omega)

theorem pyNorm_of_neg (n : Nat) (i : Int) (h : i < 0) : pyNorm n i = i + n :=
  if_pos h

theorem pyGet_coe_lt {α : Type} (xs : List α) (i : Nat) (h : i < xs.length) :
    pyGet xs (i : Int) = some xs[i] := by
  unfold pyGet
  rw [pyNorm_of_nonneg _ _ (by omega), if_pos ⟨by omega, by omega⟩]
  simp [List.getElem?_eq_getElem, h]

theorem pyGet_none_of_ge {α : Type} (xs : List α) (i : Int)
    (h : (xs.length : Int) ≤ i) : pyGet xs i = none := by
  unfold pyGet
  rw [pyNorm_of_nonneg _ _ (by omega), if_neg (by omega)]

theorem pyGet_none_of_lt_neg {α : Type} (xs : List α) (i : Int)
    (h : i < -(xs.length : Int)) : pyGet xs i = none := by
  unfold pyGet
  rw [pyNorm_of_neg _ _ (by omega), if_neg (by omega)]

theorem pyGet_neg_wrap {α : Type} (xs : List α) (k : Nat) (h1 : 1 ≤ k)
    (h2 : k ≤ xs.length) :
    pyGet xs (-(k : Int)) = some (xs.get ⟨xs.length - k, by omega⟩) := by
  unfold pyGet
  rw [pyNorm_of_neg _ _ (by omega), if_pos ⟨by omega, by omega⟩]
  have ht : (-(k : Int) + xs.length).toNat = xs.length - k := by omega
  have hlt : xs.length - k < xs.length := by omega
  rw [ht]
  simp [List.getElem?_eq_getElem, hlt, List.get_eq_getElem]

theorem runFetches_eq_self {S L T : Type} (ixs : List Int)
    (d : SkinCancerDataset S L T) : runFetches ixs d = d := by
  induction ixs generalizing d with
  | nil => rfl
  | cons i t ih => exact ih d

/-! Claim theorems. -/

/-- Claim C1: for every dataset and every index with
`0 <= index < len(samples)` and `index < len(labels)`, `__getitem__`
returns exactly the pair of the transform applied to the sample at that
position and the label at the same position. -/
theorem getitem_spec {S L T : Type} (d : SkinCancerDataset S L T) (i : Nat)
    (h1 : i < d.dataimage.length) (h2 : i < d.labels.length) :
    d.getitem (i : Int) = some (d.transforms d.dataimage[i], d.labels[i]) := by
  have ha := pyGet_coe_lt d.dataimage i h1
  have hb := pyGet_coe_lt d.labels i h2
  simp [SkinCancerDataset.getitem, ha, hb]

/-- Witness for C1 on a concrete dataset. -/
theorem getitem_spec_witness :
    (SkinCancerDataset.mk ([10, 20] : List Nat) ([5, 6] : List Nat)
        (fun n => n + 1)).getitem ((1 : Nat) : Int) = some (21, 6) :=
  getitem_spec (SkinCancerDataset.mk [10, 20] [5, 6] (fun n => n + 1)) 1
    (by decide) (by decide)

/-- Claim C2: `__len__` returns the length of the sample sequence,
regardless of the length or content of the label sequence. -/
theorem len_eq_samples_length {S L T : Type} (samples : List S)
    (labels1 labels2 : List L) (t : S → T) :
    (SkinCancerDataset.mk samples labels1 t).len = samples.length ∧
      (SkinCancerDataset.mk samples labels1 t).len
        = (SkinCancerDataset.mk samples labels2 t).len :=
  ⟨rfl, rfl⟩

/-- Claim C3: for every index at or beyond the sample count,
`__getitem__` fails (yields the error branch) rather than returning a
pair. -/
theorem getitem_none_of_ge_len {S L T : Type} (d : SkinCancerDataset S L T)
    (i : Int) (h : (d.len : Int) ≤ i) : d.getitem i = none := by
  have ha : pyGet d.dataimage i = none := pyGet_none_of_ge d.dataimage i h
  simp [SkinCancerDataset.getitem, ha]

/-- Witness for C3 on a concrete dataset and index equal to the count. -/
theorem getitem_none_of_ge_len_witness :
    (SkinCancerDataset.mk ([10, 20] : List Nat) ([5, 6] : List Nat)
        (fun n => n + 1)).getitem 2 = none :=
  getitem_none_of_ge_len
    (SkinCancerDataset.mk [10, 20] [5, 6] (fun n => n + 1)) 2 (by decide)

/-- Claim C4: with three samples and two labels, the count is 3 and the
fetch at index 2 fails; the failure comes from the label sequence (the
sample subscript at 2 succeeds while the label subscript at 2 raises). -/
theorem mismatched_lengths_example :
    (SkinCancerDataset.mk ([10, 20, 30] : List Nat) ([5, 6] : List Nat)
        (fun n => n + 1)).len = 3 ∧
      (SkinCancerDataset.mk ([10, 20, 30] : List Nat) ([5, 6] : List Nat)
        (fun n => n + 1)).getitem 2 = none ∧
      pyGet ([10, 20, 30] : List Nat) 2 = some 30 ∧
      pyGet ([5, 6] : List Nat) 2 = none := by
  decide

/-- Counterexample to C5: at the negative index `-1` on a dataset of two
samples and two labels, `__getitem__` does not fail, it returns the pair
for the last position (Python wraparound). -/
theorem getitem_neg_counterexample :
    (SkinCancerDataset.mk ([10, 20] : List Nat) ([5, 6] : List Nat)
        (fun n => n + 1)).getitem (-1) = some (21, 6) := by
  decide

/-- Claim C5 as amended: a negative index fails only when it is below
`-len(samples)`; negative indexes from `-len(samples)` to `-1` are not
rejected (they wrap around, Python list semantics). -/
theorem getitem_none_of_lt_neg_len {S L T : Type} (d : SkinCancerDataset S L T)
    (i : Int) (h : i < -(d.len : Int)) : d.getitem i = none := by
  have ha : pyGet d.dataimage i = none := pyGet_none_of_lt_neg d.dataimage i h
  simp [SkinCancerDataset.getitem, ha]

/-- Witness for the amended C5 on a concrete dataset. -/
theorem getitem_none_of_lt_neg_len_witness :
    (SkinCancerDataset.mk ([10, 20] : List Nat) ([5, 6] : List Nat)
        (fun n => n + 1)).getitem (-3) = none :=
  getitem_none_of_lt_neg_len
    (SkinCancerDataset.mk [10, 20] [5, 6] (fun n => n + 1)) (-3) (by decide)

/-- Claim C6: the transform runs exactly once per fetch with no
memoization. With a counter transform that returns the current count
and increments it, a fetch at a valid index from counter `c` returns
count `c` and leaves the counter at `c + 1`; a second fetch at the same
index from that state returns `c + 1` — two distinct, increasing
values. -/
theorem getitem_no_memoization {S L : Type} (samples : List S)
    (labels : List L) (i c : Nat) (h1 : i < samples.length)
    (h2 : i < labels.length) :
    (SkinCancerDataset.mk samples labels
        (fun _ n => (n, n + 1))).getitemE (i : Int) c
      = (some (c, labels[i]), c + 1) ∧
    (SkinCancerDataset.mk samples labels
        (fun _ n => (n, n + 1))).getitemE (i : Int) (c + 1)
      = (some (c + 1, labels[i]), c + 2) ∧
    c < c + 1 := by
  have ha := pyGet_coe_lt samples i h1
  have hb := pyGet_coe_lt labels i h2
  refine ⟨?_, ?_, by omega⟩ <;> simp [SkinCancerDataset.getitemE, ha, hb]

/-- Witness for C6 on a concrete dataset, fetching index 0 twice from
counter 0. -/
theorem getitem_no_memoization_witness :
    (SkinCancerDataset.mk ([10] : List Nat) ([5] : List Nat)
        (fun _ n => (n, n + 1))).getitemE ((0 : Nat) : Int) 0
      = (some (0, 5), 1) ∧
    (SkinCancerDataset.mk ([10] : List Nat) ([5] : List Nat)
        (fun _ n => (n, n + 1))).getitemE ((0 : Nat) : Int) (0 + 1)
      = (some (0 + 1, 5), 0 + 2) ∧
    (0 : Nat) < 0 + 1 :=
  getitem_no_memoization [10] [5] 0 0 (by decide) (by decide)

/-- Claim C7: construction performs no validation and no change: for any
samples, labels and transform (mismatched lengths included), the
instance holds exactly the three supplied references unchanged. -/
theorem mk_holds_references {S L T : Type} (samples : List S)
    (labels : List L) (t : S → T) :
    (SkinCancerDataset.mk samples labels t).dataimage = samples ∧
      (SkinCancerDataset.mk samples labels t).labels = labels ∧
      (SkinCancerDataset.mk samples labels t).transforms = t :=
  ⟨rfl, rfl, rfl⟩

/-- Claim C8: the instance is immutable: a `__getitem__` call leaves it
unchanged, any sequence of fetches leaves it unchanged, and `__len__`
returns the same value before and after any sequence of fetches, namely
the sample count. -/
theorem dataset_immutable {S L T : Type} (d : SkinCancerDataset S L T)
    (ixs : List Int) (i : Int) :
    (d.getitemM i).2 = d ∧ runFetches ixs d = d ∧
      (SkinCancerDataset.lenM (runFetches ixs d)).1
        = (SkinCancerDataset.lenM d).1 ∧
      (SkinCancerDataset.lenM d).1 = d.len := by
  refine ⟨rfl, runFetches_eq_self ixs d, ?_, rfl⟩
  rw [runFetches_eq_self ixs d]

/-- Claim C9: the transform runs strictly before the label subscript:
when the index is valid for the samples but not for the labels, the
fetch fails, yet the returned state is the one after the transform ran
on the sample at that index — the effect has already happened when the
label lookup raises. -/
theorem transform_effect_on_error {σ S L T : Type}
    (d : SkinCancerDataset S L (σ → T × σ)) (i : Nat) (s : σ)
    (h1 : i < d.dataimage.length) (h2 : d.labels.length ≤ i) :
    d.getitemE (i : Int) s = (none, (d.transforms d.dataimage[i] s).2) := by
  have ha := pyGet_coe_lt d.dataimage i h1
  have hb : pyGet d.labels (i : Int) = none :=
    pyGet_none_of_ge d.labels (i : Int) (by omega)
  simp [SkinCancerDataset.getitemE, ha, hb]

/-- Witness for C9: three samples, two labels, counter state; the fetch
at index 2 fails but the counter has been incremented by the transform. -/
theorem transform_effect_on_error_witness :
    (SkinCancerDataset.mk ([10, 20, 30] : List Nat) ([5, 6] : List Nat)
        (fun x n => (x, n + 1))).getitemE ((2 : Nat) : Int) 0
      = (none, 1) :=
  transform_effect_on_error
    (SkinCancerDataset.mk [10, 20, 30] [5, 6] (fun x n => (x, n + 1))) 2 0
    (by decide) (by decide)

/-- Claim C10: on lists of common length `N >= 1`, a fetch at the
negative index `-k` with `1 <= k <= N` does not fail: it returns the
transformed sample and the label at position `N - k` (Python negative
wraparound exposed unchanged). -/
theorem getitem_negative_wraparound {S L T : Type}
    (d : SkinCancerDataset S L T) (k : Nat) (hk1 : 1 ≤ k)
    (hk2 : k ≤ d.dataimage.length)
    (hlen : d.labels.length = d.dataimage.length) :
    d.getitem (-(k : Int))
      = some (d.transforms (d.dataimage.get ⟨d.dataimage.length - k, by omega⟩),
          d.labels.get ⟨d.labels.length - k, by omega⟩) := by
  have ha := pyGet_neg_wrap d.dataimage k hk1 hk2
  have hb := pyGet_neg_wrap d.labels k hk1 (by omega)
  simp [SkinCancerDataset.getitem, ha, hb]

/-- Witness for C10 on a concrete dataset: fetch at `-2` on length-2
lists returns the transformed first sample with the first label. -/
theorem getitem_negative_wraparound_witness :
    (SkinCancerDataset.mk ([10, 20] : List Nat) ([5, 6] : List Nat)
        (fun n => n + 1)).getitem (-(2 : Nat) : Int) = some (11, 5) :=
  getitem_negative_wraparound
    (SkinCancerDataset.mk [10, 20] [5, 6] (fun n => n + 1)) 2
    (by decide) (by decide) (by decide)
